import Mathlib

/-!
Verification of the Vulkan-backed GPU enumeration pipeline in
greenhat616/gpu-info (src/lib.rs), as a shallow embedding: the ambient
Vulkan runtime (entry loading, instance creation, device enumeration) is an
explicit environment value, and the per-device normalization is a pure
function translated from the loop body of `retrieve_gpu_info_via_vk`.
-/

/-- Error taxonomy of the library: Rust `enum Error` in src/lib.rs. -/
inductive Error where
  | VulkanOperationFailed (msg : String)
  | VulkanNotSupported
  | OpenGLContextCreationFailed
  | OpenGLQueryFailed
deriving DecidableEq, Repr

/-- Rust `Error::is_vulkan_not_supported`: true exactly on `VulkanNotSupported`. -/
def Error.is_vulkan_not_supported (e : Error) : Bool :=
  match e with
  | Error.VulkanNotSupported => true
  | _ => false

/-- Rust `enum GPUKind` in src/lib.rs. -/
inductive GPUKind where
  | Integrated
  | Discrete
  | Virtual
  | CPU
  | Unknown
deriving DecidableEq, Repr

/-- Rust `struct GPU` in src/lib.rs. Machine integers (`u64`, `u32`) are
modelled as `Nat`. -/
structure GPU where
  kind : GPUKind
  name : String
  vendor : String
  driver_version : String
  vram : Nat
  clock_speed : Option Nat
  temperature : Option Nat
deriving DecidableEq, Repr

namespace vk

/-- Raw code of `vk::PhysicalDeviceType::OTHER` (an `i32` newtype in ash). -/
def OTHER : Int := 0

/-- Raw code of `vk::PhysicalDeviceType::INTEGRATED_GPU`. -/
def INTEGRATED_GPU : Int := 1

/-- Raw code of `vk::PhysicalDeviceType::DISCRETE_GPU`. -/
def DISCRETE_GPU : Int := 2

/-- Raw code of `vk::PhysicalDeviceType::VIRTUAL_GPU`. -/
def VIRTUAL_GPU : Int := 3

/-- Raw code of `vk::PhysicalDeviceType::CPU`. -/
def CPU : Int := 4

/-- Bit of `vk::MemoryHeapFlags::DEVICE_LOCAL` (a `u32` bitflag). -/
def DEVICE_LOCAL : Nat := 1

end vk

/-- One entry of `VkPhysicalDeviceMemoryProperties::memoryHeaps`:
`size` is a `u64` byte count, `flags` a `u32` bitflag word. -/
structure MemoryHeap where
  size : Nat
  flags : Nat
deriving DecidableEq, Repr

/-- The fields of `VkPhysicalDeviceProperties` that the source reads:
`device_name` is the fixed-size NUL-terminated byte buffer (bytes as `Nat`),
`vendor_id` and `driver_version` are `u32`, `device_type` the raw `i32` code. -/
structure PhysicalDeviceProperties where
  device_name : List Nat
  vendor_id : Nat
  driver_version : Nat
  device_type : Int
deriving DecidableEq, Repr

/-- The fields of `VkPhysicalDeviceMemoryProperties` that the source reads:
the reported heap count and the fixed-size heap buffer. -/
structure PhysicalDeviceMemoryProperties where
  memory_heap_count : Nat
  memory_heaps : List MemoryHeap
deriving DecidableEq, Repr

/-- A physical device, bundled with the results of the two (total) property
queries `get_physical_device_properties` and
`get_physical_device_memory_properties` made on its handle. -/
structure VkPhysicalDevice where
  properties : PhysicalDeviceProperties
  memory_properties : PhysicalDeviceMemoryProperties
deriving DecidableEq, Repr

/-- The ambient Vulkan runtime, as observed by one call of
`retrieve_gpu_info_via_vk`: whether `ash::Entry::load` succeeds, what
`create_instance` returns (error as its diagnostic string), and what
`enumerate_physical_devices` returns. -/
structure VulkanEnv where
  entry_load_ok : Bool
  create_instance : Except String Unit
  enumerate_physical_devices : Except String (List VkPhysicalDevice)

/-- Is `b` a UTF-8 continuation byte (0x80..0xBF)? -/
def isCont (b : Nat) : Bool := 0x80 ≤ b && b ≤ 0xBF

/-- Valid second byte of a 3-byte UTF-8 sequence with lead byte `b`
(narrowed ranges for 0xE0 and 0xED exclude overlong forms and surrogates). -/
def cont3Fst (b b1 : Nat) : Bool :=
  if b = 0xE0 then 0xA0 ≤ b1 && b1 ≤ 0xBF
  else if b = 0xED then 0x80 ≤ b1 && b1 ≤ 0x9F
  else isCont b1

/-- Valid second byte of a 4-byte UTF-8 sequence with lead byte `b`
(narrowed ranges for 0xF0 and 0xF4 exclude overlong forms and code points
above 0x10FFFF). -/
def cont4Fst (b b1 : Nat) : Bool :=
  if b = 0xF0 then 0x90 ≤ b1 && b1 ≤ 0xBF
  else if b = 0xF4 then 0x80 ≤ b1 && b1 ≤ 0x8F
  else isCont b1

/-- UTF-8 decoding of a byte sequence into its code points, mirroring the
validation done by Rust `str::from_utf8` (Unicode Table 3-7): overlong
encodings, surrogate code points and code points above 0x10FFFF are rejected.
`none` means the bytes are not valid UTF-8. The first argument is fuel (one
unit per decoded code point); each step consumes at least one byte, so fuel
equal to the byte count never runs out. -/
def utf8DecodeAux : Nat → List Nat → Option (List Nat)
  | _, [] => some []
  | 0, _ :: _ => none
  | fuel + 1, b :: rest =>
    if b ≤ 0x7F then
      (utf8DecodeAux fuel rest).map fun cps => b :: cps
    else if 0xC2 ≤ b && b ≤ 0xDF then
      match rest with
      | [] => none
      | b1 :: rest1 =>
        if isCont b1 then
          (utf8DecodeAux fuel rest1).map fun cps => ((b - 0xC0) * 0x40 + (b1 - 0x80)) :: cps
        else none
    else if 0xE0 ≤ b && b ≤ 0xEF then
      match rest with
      | b1 :: b2 :: rest2 =>
        if cont3Fst b b1 && isCont b2 then
          (utf8DecodeAux fuel rest2).map fun cps =>
            ((b - 0xE0) * 0x1000 + (b1 - 0x80) * 0x40 + (b2 - 0x80)) :: cps
        else none
      | _ => none
    else if 0xF0 ≤ b && b ≤ 0xF4 then
      match rest with
      | b1 :: b2 :: b3 :: rest3 =>
        if cont4Fst b b1 && isCont b2 && isCont b3 then
          (utf8DecodeAux fuel rest3).map fun cps =>
            ((b - 0xF0) * 0x40000 + (b1 - 0x80) * 0x1000 + (b2 - 0x80) * 0x40 + (b3 - 0x80)) :: cps
        else none
      | _ => none
    else none

/-- UTF-8 decoding of a byte list into its code points (see `utf8DecodeAux`). -/
def utf8Decode (l : List Nat) : Option (List Nat) := utf8DecodeAux l.length l

/-- Device-name decoding in the source:
`CStr::from_ptr(properties.device_name.as_ptr()).to_str().unwrap_or("Unknown")` —
take the bytes before the first NUL and decode them as UTF-8, substituting
"Unknown" when they are not valid UTF-8. -/
def decode_device_name (buf : List Nat) : String :=
  match utf8Decode (buf.takeWhile (fun b => b != 0)) with
  | some cps => String.mk (cps.map Char.ofNat)
  | none => "Unknown"

/-- Rust `heap.flags.contains(vk::MemoryHeapFlags::DEVICE_LOCAL)`: all bits of
`DEVICE_LOCAL` are set in `flags`. -/
def MemoryHeap.is_device_local (heap : MemoryHeap) : Bool :=
  heap.flags &&& vk.DEVICE_LOCAL == vk.DEVICE_LOCAL

/-- The loop body of `retrieve_gpu_info_via_vk` (src/lib.rs): normalize one
the raw property structures of one physical device into a `GPU` record. The Rust
`match vendor_id` on integer literals is rendered as an equality chain; the
`u64` sum of heap sizes wraps modulo 2 to the 64. -/
def normalize_device (properties : PhysicalDeviceProperties)
    (memory_properties : PhysicalDeviceMemoryProperties) : GPU :=
  let device_name := decode_device_name properties.device_name
  let vendor_id := properties.vendor_id
  let vendor_name : String :=
    if vendor_id = 0x8086 then "Intel"
    else if vendor_id = 0x10DE then "NVIDIA"
    else if vendor_id = 0x1002 then "AMD"
    else "Unknown"
  let driver_version :=
    toString ((properties.driver_version >>> 22) &&& 0x3FF) ++ "." ++
    toString ((properties.driver_version >>> 12) &&& 0x3FF) ++ "." ++
    toString (properties.driver_version &&& 0xFFF)
  let device_type :=
    if properties.device_type = vk.INTEGRATED_GPU then GPUKind.Integrated
    else if properties.device_type = vk.DISCRETE_GPU then GPUKind.Discrete
    else if properties.device_type = vk.VIRTUAL_GPU then GPUKind.Virtual
    else if properties.device_type = vk.CPU then GPUKind.CPU
    else GPUKind.Unknown
  let vram_size :=
    (((memory_properties.memory_heaps.take memory_properties.memory_heap_count).filter
        MemoryHeap.is_device_local).map MemoryHeap.size).sum % 2 ^ 64
  { kind := device_type
    name := device_name
    vendor := vendor_name
    driver_version := driver_version
    vram := vram_size / (1024 * 1024)
    clock_speed := none
    temperature := none }

/-- Rust `retrieve_gpu_info_via_vk` (src/lib.rs), over an explicit Vulkan
environment: entry-load failure becomes `VulkanNotSupported`; instance
creation and enumeration failures become `VulkanOperationFailed` carrying the
native diagnostic string; an empty device list is escalated to
`VulkanOperationFailed`; otherwise each device is normalized in order. -/
def retrieve_gpu_info_via_vk (env : VulkanEnv) : Except Error (List GPU) :=
  if env.entry_load_ok = false then
    Except.error Error.VulkanNotSupported
  else
    match env.create_instance with
    | Except.error e => Except.error (Error.VulkanOperationFailed e)
    | Except.ok _ =>
      match env.enumerate_physical_devices with
      | Except.error e => Except.error (Error.VulkanOperationFailed e)
      | Except.ok physical_devices =>
        if physical_devices.isEmpty then
          Except.error (Error.VulkanOperationFailed
            "No Vulkan-compatible GPUs found.")
        else
          Except.ok (physical_devices.map (fun device =>
            normalize_device device.properties device.memory_properties))

/-- The destroyable native handles a call can hold: the loaded API entry
(the dynamically loaded Vulkan library behind `ash::Entry`) and the created
`VkInstance`. Vulkan physical-device handles are owned by the instance and
have no destroy operation of their own. -/
inductive Handle where
  | loadedApi
  | vkInstance
deriving DecidableEq, Repr

/-- Handle accounting for one call of `retrieve_gpu_info_via_vk`, per exit
path: first component the handles acquired, second the handles released
before the call returns. Acquisitions are the source calls
(`ash::Entry::load`, `create_instance`); releases follow Rust drop semantics
at scope exit: dropping the `ash::Entry` unloads the dynamically loaded
library, while dropping the `ash::Instance` wrapper does not destroy the
native instance, and the source contains no `destroy_instance` call. -/
def retrieve_gpu_info_via_vk_handles (env : VulkanEnv) : List Handle × List Handle :=
  if env.entry_load_ok = false then
    ([], [])
  else
    match env.create_instance with
    | Except.error _ => ([Handle.loadedApi], [Handle.loadedApi])
    | Except.ok _ => ([Handle.loadedApi, Handle.vkInstance], [Handle.loadedApi])

/-- A concrete device-property sample: name buffer "GPU0" NUL-terminated,
NVIDIA vendor id, packed driver version 10.5.3, discrete device type. -/
def sampleProps : PhysicalDeviceProperties :=
  { device_name := [0x47, 0x50, 0x55, 0x30, 0]
    vendor_id := 0x10DE
    driver_version := (10 <<< 22) ||| (5 <<< 12) ||| 3
    device_type := vk.DISCRETE_GPU }

/-- A concrete memory-property sample: one device-local heap of 8 GiB. -/
def sampleMem : PhysicalDeviceMemoryProperties :=
  { memory_heap_count := 1
    memory_heaps := [{ size := 8589934592, flags := vk.DEVICE_LOCAL }] }

/-- An environment in which loading the Vulkan entry points fails. -/
def envNoVk : VulkanEnv :=
  { entry_load_ok := false
    create_instance := Except.ok ()
    enumerate_physical_devices := Except.ok [] }

/-- An environment with a working Vulkan runtime exposing one device. -/
def envOneDevice : VulkanEnv :=
  { entry_load_ok := true
    create_instance := Except.ok ()
    enumerate_physical_devices :=
      Except.ok [{ properties := sampleProps, memory_properties := sampleMem }] }

/-- Helper: decoding a non-empty byte list successfully yields a non-empty
code-point list (the leading byte starts one code point). -/
theorem utf8DecodeAux_cons_ne_nil (fuel b : Nat) (rest : List Nat) (cps : List Nat)
    (h : utf8DecodeAux fuel (b :: rest) = some cps) : cps ≠ [] := by
  cases fuel with
  | zero => exact Option.noConfusion h
  | succ fuel =>
    unfold utf8DecodeAux at h
    repeat' split at h
    all_goals
      first
        | exact Option.noConfusion h
        | (rcases Option.map_eq_some'.mp h with ⟨a, -, ha⟩
           intro hc
           rw [← ha] at hc
           exact List.noConfusion hc)

/-- Helper: same statement for the fuel wrapper `utf8Decode`. -/
theorem utf8Decode_cons_ne_nil (b : Nat) (rest : List Nat) (cps : List Nat)
    (h : utf8Decode (b :: rest) = some cps) : cps ≠ [] :=
  utf8DecodeAux_cons_ne_nil (b :: rest).length b rest cps h

/-- C1: every call of retrieve_gpu_info_via_vk either returns a non-empty
list of GPU records or an error, never an empty success list; an empty
adapter enumeration is escalated to a VulkanOperationFailed error with the
message "No Vulkan-compatible GPUs found.". -/
theorem retrieve_ok_nonempty :
    (∀ (env : VulkanEnv) (gpus : List GPU),
        retrieve_gpu_info_via_vk env = Except.ok gpus → gpus ≠ []) ∧
    (∀ env : VulkanEnv, env.entry_load_ok = true →
        env.create_instance = Except.ok () →
        env.enumerate_physical_devices = Except.ok [] →
        retrieve_gpu_info_via_vk env =
          Except.error (Error.VulkanOperationFailed
            "No Vulkan-compatible GPUs found.")) := by
  constructor
  · intro env gpus h
    unfold retrieve_gpu_info_via_vk at h
    by_cases hload : env.entry_load_ok = false
    · rw [if_pos hload] at h
      exact Except.noConfusion h
    · rw [if_neg hload] at h
      cases hci : env.create_instance with
      | error e =>
        simp only [hci] at h
        exact Except.noConfusion h
      | ok u =>
        simp only [hci] at h
        cases hen : env.enumerate_physical_devices with
        | error e =>
          simp only [hen] at h
          exact Except.noConfusion h
        | ok devices =>
          simp only [hen] at h
          by_cases hd : devices.isEmpty
          · rw [if_pos hd] at h
            exact Except.noConfusion h
          · rw [if_neg hd] at h
            have hne : devices ≠ [] := by simpa [List.isEmpty_iff] using hd
            injection h with h2
            intro hnil
            rw [hnil] at h2
            exact hne (List.map_eq_nil_iff.mp h2)
  · intro env h1 h2 h3
    simp [retrieve_gpu_info_via_vk, h1, h2, h3]

/-- C1 witness: a concrete environment with one adapter yields a concrete
non-empty success list. -/
theorem retrieve_ok_nonempty_witness :
    retrieve_gpu_info_via_vk envOneDevice =
      Except.ok [normalize_device sampleProps sampleMem] ∧
    [normalize_device sampleProps sampleMem] ≠ ([] : List GPU) :=
  ⟨rfl, retrieve_ok_nonempty.1 envOneDevice [normalize_device sampleProps sampleMem] rfl⟩

/-- The two-heap memory sample of spec property P4: a 4 GiB device-local heap
and a 256 MiB non-device-local heap. -/
def memTwoHeaps : PhysicalDeviceMemoryProperties :=
  { memory_heap_count := 2
    memory_heaps := [{ size := 4294967296, flags := 1 }, { size := 268435456, flags := 0 }] }

/-- The sub-megabyte memory sample of spec property P5: one device-local heap
of 1048575 bytes. -/
def memSubMB : PhysicalDeviceMemoryProperties :=
  { memory_heap_count := 1
    memory_heaps := [{ size := 1048575, flags := 1 }] }

/-- C2: the vram field is the truncating megabyte division (by 1024*1024) of
the sum of the sizes of exactly the device-local heaps among the first
memory_heap_count heaps (as long as that sum fits in a u64); a single
device-local heap of 1048575 bytes yields vram = 0, and the two-heap P4
sample yields vram = 4096 with the non-local heap excluded. -/
theorem vram_aggregation :
    (∀ (p : PhysicalDeviceProperties) (m : PhysicalDeviceMemoryProperties),
        (((m.memory_heaps.take m.memory_heap_count).filter
            MemoryHeap.is_device_local).map MemoryHeap.size).sum < 2 ^ 64 →
        (normalize_device p m).vram =
          (((m.memory_heaps.take m.memory_heap_count).filter
              MemoryHeap.is_device_local).map MemoryHeap.size).sum / (1024 * 1024)) ∧
    (normalize_device sampleProps memSubMB).vram = 0 ∧
    (normalize_device sampleProps memTwoHeaps).vram = 4096 := by
  refine ⟨?_, by decide, by decide⟩
  intro p m hlt
  simp only [normalize_device]
  rw [Nat.mod_eq_of_lt hlt]

/-- C2 witness: the no-overflow bound is discharged at the concrete P4
sample, so the general equation applies there. -/
theorem vram_aggregation_witness :
    (((memTwoHeaps.memory_heaps.take memTwoHeaps.memory_heap_count).filter
        MemoryHeap.is_device_local).map MemoryHeap.size).sum < 2 ^ 64 ∧
    (normalize_device sampleProps memTwoHeaps).vram =
      (((memTwoHeaps.memory_heaps.take memTwoHeaps.memory_heap_count).filter
          MemoryHeap.is_device_local).map MemoryHeap.size).sum / (1024 * 1024) :=
  ⟨by decide, vram_aggregation.1 sampleProps memTwoHeaps (by decide)⟩

/-- C3: the driver_version field is the dotted decimal string
"major.minor.patch" with major the ten bits from bit 22, minor the ten bits
from bit 12, patch the low twelve bits of the packed driver version; the
packed value (10 <<< 22) ||| (5 <<< 12) ||| 3 decodes to "10.5.3". -/
theorem driver_version_decode :
    (∀ (p : PhysicalDeviceProperties) (m : PhysicalDeviceMemoryProperties),
        (normalize_device p m).driver_version =
          toString ((p.driver_version >>> 22) &&& 0x3FF) ++ "." ++
          toString ((p.driver_version >>> 12) &&& 0x3FF) ++ "." ++
          toString (p.driver_version &&& 0xFFF)) ∧
    (normalize_device
        { sampleProps with driver_version := (10 <<< 22) ||| (5 <<< 12) ||| 3 }
        sampleMem).driver_version = "10.5.3" :=
  ⟨fun p m => rfl, by decide⟩

/-- C4: the vendor field is exactly "Intel" for vendor id 0x8086, "NVIDIA"
for 0x10DE, "AMD" for 0x1002, and exactly "Unknown" for every other vendor
id, in particular 0x0000 and 0x1234. -/
theorem vendor_mapping :
    (∀ (p : PhysicalDeviceProperties) (m : PhysicalDeviceMemoryProperties),
        (p.vendor_id = 0x8086 → (normalize_device p m).vendor = "Intel") ∧
        (p.vendor_id = 0x10DE → (normalize_device p m).vendor = "NVIDIA") ∧
        (p.vendor_id = 0x1002 → (normalize_device p m).vendor = "AMD") ∧
        (p.vendor_id ≠ 0x8086 → p.vendor_id ≠ 0x10DE → p.vendor_id ≠ 0x1002 →
          (normalize_device p m).vendor = "Unknown")) ∧
    (normalize_device { sampleProps with vendor_id := 0x0000 } sampleMem).vendor = "Unknown" ∧
    (normalize_device { sampleProps with vendor_id := 0x1234 } sampleMem).vendor = "Unknown" := by
  refine ⟨?_, by decide, by decide⟩
  intro p m
  refine ⟨fun h => ?_, fun h => ?_, fun h => ?_, fun h1 h2 h3 => ?_⟩
  · simp [normalize_device, h]
  · simp [normalize_device, h]
  · simp [normalize_device, h]
  · simp [normalize_device, h1, h2, h3]

/-- C4 witness: the three recognized vendor ids and one unrecognized id,
checked through the general mapping at concrete inputs. -/
theorem vendor_mapping_witness :
    (normalize_device { sampleProps with vendor_id := 0x8086 } sampleMem).vendor = "Intel" ∧
    (normalize_device sampleProps sampleMem).vendor = "NVIDIA" ∧
    (normalize_device { sampleProps with vendor_id := 0x1002 } sampleMem).vendor = "AMD" :=
  ⟨(vendor_mapping.1 { sampleProps with vendor_id := 0x8086 } sampleMem).1 rfl,
   (vendor_mapping.1 sampleProps sampleMem).2.1 rfl,
   (vendor_mapping.1 { sampleProps with vendor_id := 0x1002 } sampleMem).2.2.1 rfl⟩

/-- C5: the kind field is Integrated for the integrated-GPU code, Discrete
for the discrete-GPU code, Virtual for the virtual-GPU code, CPU for the cpu
code, and Unknown for every other device-type code (for example the OTHER
code 0 and the out-of-range code 7). -/
theorem kind_mapping :
    (∀ (p : PhysicalDeviceProperties) (m : PhysicalDeviceMemoryProperties),
        (p.device_type = vk.INTEGRATED_GPU → (normalize_device p m).kind = GPUKind.Integrated) ∧
        (p.device_type = vk.DISCRETE_GPU → (normalize_device p m).kind = GPUKind.Discrete) ∧
        (p.device_type = vk.VIRTUAL_GPU → (normalize_device p m).kind = GPUKind.Virtual) ∧
        (p.device_type = vk.CPU → (normalize_device p m).kind = GPUKind.CPU) ∧
        (p.device_type ≠ vk.INTEGRATED_GPU → p.device_type ≠ vk.DISCRETE_GPU →
          p.device_type ≠ vk.VIRTUAL_GPU → p.device_type ≠ vk.CPU →
          (normalize_device p m).kind = GPUKind.Unknown)) ∧
    (normalize_device { sampleProps with device_type := vk.OTHER } sampleMem).kind
      = GPUKind.Unknown ∧
    (normalize_device { sampleProps with device_type := 7 } sampleMem).kind
      = GPUKind.Unknown := by
  refine ⟨?_, by decide, by decide⟩
  intro p m
  refine ⟨fun h => ?_, fun h => ?_, fun h => ?_, fun h => ?_, fun h1 h2 h3 h4 => ?_⟩
  · simp [normalize_device, h, vk.INTEGRATED_GPU, vk.DISCRETE_GPU, vk.VIRTUAL_GPU, vk.CPU]
  · simp [normalize_device, h, vk.INTEGRATED_GPU, vk.DISCRETE_GPU, vk.VIRTUAL_GPU, vk.CPU]
  · simp [normalize_device, h, vk.INTEGRATED_GPU, vk.DISCRETE_GPU, vk.VIRTUAL_GPU, vk.CPU]
  · simp [normalize_device, h, vk.INTEGRATED_GPU, vk.DISCRETE_GPU, vk.VIRTUAL_GPU, vk.CPU]
  · simp [normalize_device, h1, h2, h3, h4]

/-- C5 witness: all four recognized raw codes checked through the general
mapping at concrete inputs. -/
theorem kind_mapping_witness :
    (normalize_device { sampleProps with device_type := vk.INTEGRATED_GPU } sampleMem).kind
      = GPUKind.Integrated ∧
    (normalize_device sampleProps sampleMem).kind = GPUKind.Discrete ∧
    (normalize_device { sampleProps with device_type := vk.VIRTUAL_GPU } sampleMem).kind
      = GPUKind.Virtual ∧
    (normalize_device { sampleProps with device_type := vk.CPU } sampleMem).kind
      = GPUKind.CPU :=
  ⟨(kind_mapping.1 { sampleProps with device_type := vk.INTEGRATED_GPU } sampleMem).1 rfl,
   (kind_mapping.1 sampleProps sampleMem).2.1 rfl,
   (kind_mapping.1 { sampleProps with device_type := vk.VIRTUAL_GPU } sampleMem).2.2.1 rfl,
   (kind_mapping.1 { sampleProps with device_type := vk.CPU } sampleMem).2.2.2.1 rfl⟩

/-- C10: the vendor lookup matches the full 32-bit vendor id exactly: every
identifier outside the 16-bit range whose low 16 bits equal any of the three
recognized vendor codes (0x8086, 0x10DE or 0x1002) maps to "Unknown" — no
masking to 16 bits happens before the lookup; concretely 0x00018086,
0x001010DE and 0x00011002 all map to "Unknown". -/
theorem vendor_exact_match :
    (∀ (p : PhysicalDeviceProperties) (m : PhysicalDeviceMemoryProperties),
        0xFFFF < p.vendor_id →
        (p.vendor_id &&& 0xFFFF = 0x8086 ∨ p.vendor_id &&& 0xFFFF = 0x10DE ∨
          p.vendor_id &&& 0xFFFF = 0x1002) →
        (normalize_device p m).vendor = "Unknown") ∧
    (normalize_device { sampleProps with vendor_id := 0x00018086 } sampleMem).vendor
      = "Unknown" ∧
    (normalize_device { sampleProps with vendor_id := 0x001010DE } sampleMem).vendor
      = "Unknown" ∧
    (normalize_device { sampleProps with vendor_id := 0x00011002 } sampleMem).vendor
      = "Unknown" := by
  refine ⟨?_, by decide, by decide, by decide⟩
  intro p m hhi hmask
  have h1 : p.vendor_id ≠ 0x8086 := by omega
  have h2 : p.vendor_id ≠ 0x10DE := by omega
  have h3 : p.vendor_id ≠ 0x1002 := by omega
  simp [normalize_device, h1, h2, h3]

/-- C10 witness: the general no-masking statement applied at 0x001010DE,
whose low 16 bits are the recognized NVIDIA code 0x10DE. -/
theorem vendor_exact_match_witness :
    0xFFFF < ({ sampleProps with vendor_id := 0x001010DE } :
        PhysicalDeviceProperties).vendor_id ∧
    ({ sampleProps with vendor_id := 0x001010DE } : PhysicalDeviceProperties).vendor_id
        &&& 0xFFFF = 0x10DE ∧
    (normalize_device { sampleProps with vendor_id := 0x001010DE } sampleMem).vendor
      = "Unknown" :=
  ⟨by decide, by decide,
   vendor_exact_match.1 { sampleProps with vendor_id := 0x001010DE } sampleMem
     (by decide) (Or.inr (Or.inl (by decide)))⟩

/-- C6: the name field is the NUL-terminated UTF-8 decoding of the raw
device-name buffer, and whenever the bytes before the NUL terminator are not
valid UTF-8 the name is exactly "Unknown" — a total decode that is never the
empty string in that case (concretely for the invalid buffer 0xC3 0x28). -/
theorem name_decode_robustness :
    (∀ (p : PhysicalDeviceProperties) (m : PhysicalDeviceMemoryProperties),
        (normalize_device p m).name = decode_device_name p.device_name) ∧
    (∀ (p : PhysicalDeviceProperties) (m : PhysicalDeviceMemoryProperties),
        utf8Decode (p.device_name.takeWhile (fun b => b != 0)) = none →
        (normalize_device p m).name = "Unknown" ∧ (normalize_device p m).name ≠ "") ∧
    (normalize_device { sampleProps with device_name := [0xC3, 0x28, 0] } sampleMem).name
      = "Unknown" := by
  refine ⟨fun p m => rfl, ?_, by decide⟩
  intro p m h
  have hu : (normalize_device p m).name = "Unknown" := by
    show decode_device_name p.device_name = "Unknown"
    unfold decode_device_name
    rw [h]
  refine ⟨hu, ?_⟩
  rw [hu]
  decide

/-- C6 witness: the decode-failure branch applied at the concrete invalid
buffer 0xFF. -/
theorem name_decode_robustness_witness :
    utf8Decode ((({ sampleProps with device_name := [0xFF, 0] } :
        PhysicalDeviceProperties).device_name).takeWhile (fun b => b != 0)) = none ∧
    (normalize_device { sampleProps with device_name := [0xFF, 0] } sampleMem).name
      = "Unknown" :=
  ⟨by decide,
   (name_decode_robustness.2.1 { sampleProps with device_name := [0xFF, 0] }
     sampleMem (by decide)).1⟩

/-- Device properties whose name buffer starts with the NUL terminator. -/
def propsNulName : PhysicalDeviceProperties :=
  { sampleProps with device_name := [0, 0, 0, 0] }

/-- An environment exposing one adapter whose name buffer starts with NUL. -/
def envNulName : VulkanEnv :=
  { entry_load_ok := true
    create_instance := Except.ok ()
    enumerate_physical_devices :=
      Except.ok [{ properties := propsNulName, memory_properties := sampleMem }] }

/-- C7 counterexample: a device-name buffer whose first byte is the NUL
terminator decodes to the empty string, so the call produces a GPU record
with an empty name — the claimed never-empty invariant fails there. -/
theorem name_empty_counterexample :
    retrieve_gpu_info_via_vk envNulName =
      Except.ok [normalize_device propsNulName sampleMem] ∧
    (normalize_device propsNulName sampleMem).name = "" := by
  exact ⟨rfl, by decide⟩

/-- C7 amended: every produced record has a non-empty vendor, and the name is
non-empty whenever the bytes before the first NUL of the device-name buffer
are non-empty; only an immediately NUL-terminated (empty) device name yields
an empty name string. -/
theorem name_vendor_nonempty :
    ∀ (p : PhysicalDeviceProperties) (m : PhysicalDeviceMemoryProperties),
      (normalize_device p m).vendor ≠ "" ∧
      (p.device_name.takeWhile (fun b => b != 0) ≠ [] →
        (normalize_device p m).name ≠ "") := by
  intro p m
  constructor
  · show (if p.vendor_id = 0x8086 then "Intel"
      else if p.vendor_id = 0x10DE then "NVIDIA"
      else if p.vendor_id = 0x1002 then "AMD"
      else "Unknown") ≠ ""
    repeat' split
    all_goals decide
  · intro hpre
    show decode_device_name p.device_name ≠ ""
    unfold decode_device_name
    cases hl : p.device_name.takeWhile (fun b => b != 0) with
    | nil => exact absurd hl hpre
    | cons b rest =>
      cases hdec : utf8Decode (b :: rest) with
      | none => decide
      | some cps =>
        have hcps := utf8Decode_cons_ne_nil b rest cps hdec
        cases cps with
        | nil => exact absurd rfl hcps
        | cons c cs =>
          intro hstr
          have hdata := congrArg String.data hstr
          simp at hdata

/-- C7 amended witness: the non-empty-name branch applied at the concrete
sample device. -/
theorem name_vendor_nonempty_witness :
    sampleProps.device_name.takeWhile (fun b => b != 0) ≠ [] ∧
    (normalize_device sampleProps sampleMem).name ≠ "" ∧
    (normalize_device sampleProps sampleMem).vendor ≠ "" :=
  ⟨by decide, (name_vendor_nonempty sampleProps sampleMem).2 (by decide),
   (name_vendor_nonempty sampleProps sampleMem).1⟩

/-- C8: the no-leak claim fails on the code — on the successful one-adapter
path the call acquires the loaded API entry and the Vulkan instance but
releases only the loaded entry at return: the source has no destroy_instance
call, so the created instance handle is still live when the call returns. -/
theorem instance_handle_not_released :
    retrieve_gpu_info_via_vk_handles envOneDevice =
      ([Handle.loadedApi, Handle.vkInstance], [Handle.loadedApi]) ∧
    Handle.vkInstance ∈ (retrieve_gpu_info_via_vk_handles envOneDevice).1 ∧
    Handle.vkInstance ∉ (retrieve_gpu_info_via_vk_handles envOneDevice).2 :=
  ⟨rfl, by decide, by decide⟩

/-- C9: the call fails with VulkanNotSupported exactly when loading the
Vulkan entry points fails; with the entry loaded, every failure is a
VulkanOperationFailed carrying diagnostic text; and the predicate
is_vulkan_not_supported is true precisely on the VulkanNotSupported kind. -/
theorem error_taxonomy :
    (∀ e : Error, e.is_vulkan_not_supported = true ↔ e = Error.VulkanNotSupported) ∧
    (∀ env : VulkanEnv, env.entry_load_ok = false →
        retrieve_gpu_info_via_vk env = Except.error Error.VulkanNotSupported) ∧
    (∀ (env : VulkanEnv) (e : Error), env.entry_load_ok = true →
        retrieve_gpu_info_via_vk env = Except.error e →
        ∃ s, e = Error.VulkanOperationFailed s) := by
  refine ⟨?_, ?_, ?_⟩
  · intro e
    cases e <;> simp [Error.is_vulkan_not_supported]
  · intro env h
    simp [retrieve_gpu_info_via_vk, h]
  · intro env e hload h
    unfold retrieve_gpu_info_via_vk at h
    rw [hload, if_neg (by simp)] at h
    cases hci : env.create_instance with
    | error s =>
      simp only [hci] at h
      injection h with h2
      exact ⟨s, h2.symm⟩
    | ok u =>
      simp only [hci] at h
      cases hen : env.enumerate_physical_devices with
      | error s =>
        simp only [hen] at h
        injection h with h2
        exact ⟨s, h2.symm⟩
      | ok devices =>
        simp only [hen] at h
        by_cases hd : devices.isEmpty
        · rw [if_pos hd] at h
          injection h with h2
          exact ⟨"No Vulkan-compatible GPUs found.", h2.symm⟩
        · rw [if_neg hd] at h
          exact Except.noConfusion h

/-- C9 witness: a failed entry load yields VulkanNotSupported, recognized by
the predicate; a failed instance creation yields a VulkanOperationFailed. -/
theorem error_taxonomy_witness :
    envNoVk.entry_load_ok = false ∧
    retrieve_gpu_info_via_vk envNoVk = Except.error Error.VulkanNotSupported ∧
    Error.is_vulkan_not_supported Error.VulkanNotSupported = true :=
  ⟨rfl, error_taxonomy.2.1 envNoVk rfl,
   (error_taxonomy.1 Error.VulkanNotSupported).mpr rfl⟩
